/-
Verification of the nuclear-box repository against its specification.

The development shallowly embeds the two Python source files:
  * parse_atomic_mass_data.py : the raw-table Row Parser (convert_row,
    parse_quantity, is_parseable_as_float) working over whitespace tokens;
  * nuclear_box.py : the table loader (AtomicTableEntry.from_row,
    CalculatedType) and the nuclide physics model (Nuclide,
    approximate_binding_energy, minimal_binding_energy_protons).

Modelling conventions:
  * Python floats are modelled as exact rationals (for the parser) or exact
    reals (for the physics model); float() / int() parsing is modelled by an
    executable decimal grammar (sign, digits, optional fraction, optional
    exponent) covering every token shape the table format can produce
    (inf/nan/underscore forms of the Python builtins are outside the token
    alphabet of the format and are not modelled);
  * exceptions (ValueError, TypeError, IndexError) are modelled by Option:
    any raising execution is mapped to none;
  * heterogeneous Python lists of row cells are modelled by the Cell type.
-/
import Mathlib

set_option maxRecDepth 4000

/-! ## Model of Python numeric-literal parsing (float() and int() on tokens) -/

/-- Numeric value of a digit string, most significant first. -/
def digitsToNat (ds : List Char) : ℕ :=
  ds.foldl (fun a c => 10 * a + (c.toNat - 48)) 0

/-- Value of a nonempty all-digit character list; none otherwise. -/
def allDigitsVal (cs : List Char) : Option ℕ :=
  if cs ≠ [] ∧ cs.all (fun c => c.isDigit) = true then some (digitsToNat cs) else none

/-- Exponent part after the letter e: an optional sign followed by digits. -/
def parseExp (cs : List Char) : Option ℤ :=
  match cs with
  | [] => none
  | c :: rest =>
    if c = '+' then (allDigitsVal rest).map (fun n => (n : ℤ))
    else if c = '-' then (allDigitsVal rest).map (fun n => -(n : ℤ))
    else (allDigitsVal cs).map (fun n => (n : ℤ))

/-- Attach an optional exponent suffix to an already parsed mantissa. -/
def mantissaExp : ℚ → List Char → Option ℚ
  | m, [] => some m
  | m, c :: rest =>
    if c = 'e' ∨ c = 'E' then (parseExp rest).map (fun ex => m * (10 : ℚ) ^ ex)
    else none

/-- Fractional part after the decimal point: fraction digits then an optional
exponent; ds holds the digits before the point. -/
def pyFloatFrac (ds r2 : List Char) : Option ℚ :=
  if ds = [] ∧ r2.takeWhile (fun c => c.isDigit) = [] then none
  else mantissaExp ((digitsToNat ds : ℚ)
      + (digitsToNat (r2.takeWhile (fun c => c.isDigit)) : ℚ)
        / (10 : ℚ) ^ (r2.takeWhile (fun c => c.isDigit)).length)
    (r2.dropWhile (fun c => c.isDigit))

/-- Continuation after the leading digit run ds of an unsigned float token:
nothing, a decimal point, or an exponent letter. -/
def pyFloatRest : List Char → List Char → Option ℚ
  | ds, [] => if ds = [] then none else some ((digitsToNat ds : ℚ))
  | ds, c :: r2 =>
    if c = '.' then pyFloatFrac ds r2
    else if ds = [] then none
    else mantissaExp ((digitsToNat ds : ℚ)) (c :: r2)

/-- Unsigned float token: digits, optional point with fraction digits,
optional exponent.  At least one mantissa digit is required. -/
def pyFloatAux (cs : List Char) : Option ℚ :=
  pyFloatRest (cs.takeWhile (fun c => c.isDigit)) (cs.dropWhile (fun c => c.isDigit))

/-- Optional leading sign of a float token. -/
def pyFloatSigned : List Char → Option ℚ
  | [] => none
  | c :: rest =>
    if c = '+' then pyFloatAux rest
    else if c = '-' then (pyFloatAux rest).map (fun q => -q)
    else pyFloatAux (c :: rest)

/-- Model of Python float(s) on a whitespace-free token: optional sign then
an unsigned float literal; a failing parse (ValueError) is none. -/
def pyFloat? (s : String) : Option ℚ := pyFloatSigned s.toList

/-- Model of Python int(s) on a whitespace-free token. -/
def pyInt? (s : String) : Option ℤ :=
  match s.toList with
  | [] => none
  | c :: rest =>
    if c = '+' then (allDigitsVal rest).map (fun n => (n : ℤ))
    else if c = '-' then (allDigitsVal rest).map (fun n => -(n : ℤ))
    else (allDigitsVal (c :: rest)).map (fun n => (n : ℤ))

/-- Model of Python str.split(): cut on runs of whitespace, no empty pieces.
The accumulator holds the characters of the current token, reversed. -/
def splitWsAux : List Char → List Char → List String
  | [], acc => if acc = [] then [] else [String.mk acc.reverse]
  | c :: cs, acc =>
    if c.isWhitespace then
      if acc = [] then splitWsAux cs []
      else String.mk acc.reverse :: splitWsAux cs []
    else splitWsAux cs (c :: acc)

/-- Tokens of one raw line, Python line.split(). -/
def pySplit (s : String) : List String := splitWsAux s.toList []

/-! ## parse_atomic_mass_data.py -/

def ABSENT_MARKER : String := "absent"

def CALCULATED_MARKER : String := "calculated"

def ESTIMATED_MARKER : String := "estimated"

def ABSENT_CHARACTER : String := "*"

/-- row[i].replace(ESTIMATED_CHARACTER, ""): drop every hash character. -/
def stripEstimated (s : String) : String :=
  String.mk (s.toList.filter (fun c => c ≠ '#'))

/-- is_parseable_as_float from the source: float(x) succeeds. -/
def is_parseable_as_float (x : String) : Bool := (pyFloat? x).isSome

/-- One output cell of convert_row: Python int, str or float. -/
inductive Cell
  | i (n : ℤ)
  | s (v : String)
  | f (q : ℚ)
deriving DecidableEq, Repr

/-- parse_quantity from the source: at index i either the absence marker
(one token, empty value and margin, provenance string absent) or a
value/margin token pair with hash characters stripped before float parsing;
the provenance is estimated when the raw value token contains a hash.
Returns (tokens consumed, three cells); none models a raised exception. -/
def parse_quantity (row : List String) (i : ℕ) : Option (ℕ × List Cell) :=
  match row.get? i with
  | none => none
  | some t =>
    if t = ABSENT_CHARACTER then
      some (1, [Cell.s "", Cell.s "", Cell.s ABSENT_MARKER])
    else
      match pyFloat? (stripEstimated t), row.get? (i + 1) with
      | some v, some t2 =>
        match pyFloat? (stripEstimated t2) with
        | some m =>
          some (2, [Cell.f v, Cell.f m,
            Cell.s (if '#' ∈ t.toList then ESTIMATED_MARKER else CALCULATED_MARKER)])
        | none => none
      | _, _ => none

/-- Lines 64-66 of convert_row: the atomic-mass columns.  The remainder
quantity is parsed at index+1 by parse_quantity, the integer part at index,
and the combined value is integer part plus remainder times 1e-6; the
remainder's margin and provenance cells are appended unchanged.  When the
remainder quantity is absent its value cell is the empty string and the
multiplication raises TypeError, modelled by none. -/
def atomic_mass_part (parts : List String) (index : ℕ) : Option (List Cell) :=
  match parse_quantity parts (index + 1), (parts.get? index).bind pyFloat? with
  | some (_, Cell.f r :: rest), some ip =>
      some (Cell.f (ip + r * (1 / 1000000)) :: rest)
  | some (_, _), _ => none
  | none, _ => none

/-- convert_row from the source, after the leading control character has been
stripped and the line split into tokens: integer fields N, Z, A from tokens
1-3, element from token 4, then a one-token skip when token 5 is not
parseable as a float, then three parse_quantity fields (with one extra fixed
token skipped before the third) and the atomic-mass combination. -/
def convert_row_parts (parts : List String) : Option (List Cell) :=
  match (parts.get? 1).bind pyInt?, (parts.get? 2).bind pyInt?,
        (parts.get? 3).bind pyInt?, parts.get? 4, parts.get? 5 with
  | some n, some z, some a, some el, some t5 =>
    let index := if is_parseable_as_float t5 then 5 else 6
    match parse_quantity parts index with
    | none => none
    | some (adj1, q1) =>
      match parse_quantity parts (index + adj1) with
      | none => none
      | some (adj2, q2) =>
        match parse_quantity parts (index + adj1 + adj2 + 1) with
        | none => none
        | some (adj3, q3) =>
          match atomic_mass_part parts (index + adj1 + adj2 + 1 + adj3) with
          | none => none
          | some q4 =>
              some ([Cell.i n, Cell.i z, Cell.i a, Cell.s el] ++ q1 ++ q2 ++ q3 ++ q4)
  | _, _, _, _, _ => none

/-- convert_row on a raw line: drop the leading Fortran control character,
split on whitespace, convert. -/
def convert_row (line : String) : Option (List Cell) :=
  convert_row_parts (pySplit (String.mk (line.toList.drop 1)))

/-! Numeric values of the digit characters, for evaluating the parser on
concrete tokens. -/

lemma toNat_c0 : ('0').toNat = 48 := rfl

lemma toNat_c1 : ('1').toNat = 49 := rfl

lemma toNat_c2 : ('2').toNat = 50 := rfl

lemma toNat_c3 : ('3').toNat = 51 := rfl

lemma toNat_c4 : ('4').toNat = 52 := rfl

lemma toNat_c5 : ('5').toNat = 53 := rfl

lemma toNat_c6 : ('6').toNat = 54 := rfl

lemma toNat_c7 : ('7').toNat = 55 := rfl

lemma toNat_c8 : ('8').toNat = 56 := rfl

lemma toNat_c9 : ('9').toNat = 57 := rfl

example : pyFloat? "1234.5" = some (2469/2) := by
  norm_num +decide [pyFloat?, pyFloatSigned, pyFloatAux, pyFloatRest, pyFloatFrac,
    mantissaExp, digitsToNat, toNat_c1, toNat_c2, toNat_c3, toNat_c4, toNat_c5]
example : pyFloat? "#1234.5" = none := by decide
example : pyFloat? "*" = none := by decide
example : pyFloat? "B-" = none := by decide
example : pyFloat? "-12.25e2" = some (-1225) := by
  norm_num +decide [pyFloat?, pyFloatSigned, pyFloatAux, pyFloatRest, pyFloatFrac,
    mantissaExp, parseExp, allDigitsVal, digitsToNat, toNat_c1, toNat_c2, toNat_c5]
example : pyInt? "17" = some 17 := by
  norm_num +decide [pyInt?, allDigitsVal, digitsToNat, toNat_c1, toNat_c7]
example : pySplit " 1  2 ab " = ["1", "2", "ab"] := by decide

/-! ## nuclear_box.py : table loading -/

/-- CalculatedType from the source. -/
inductive CalculatedType
  | Calculated
  | Estimated
  | Absent
deriving DecidableEq, Repr

/-- CalculatedType.from_str: unrecognized strings default to Absent. -/
def CalculatedType.from_str (s : String) : CalculatedType :=
  if s = "calculated" then CalculatedType.Calculated
  else if s = "estimated" then CalculatedType.Estimated
  else CalculatedType.Absent

/-- AtomicTableEntry from the source.  Quantity values are stored, as in the
source, already multiplied by their unit scale: energies in MeV (the CSV
holds keV, the source multiplies by the 1e-3 MeV unit), the atomic mass in
dalton.  None models Python None.  The last field keeps the source's
(misnamed) dataclass field name. -/
structure AtomicTableEntry where
  n : ℤ
  z : ℤ
  a : ℤ
  element : String
  mass_excess : Option ℚ
  mass_excess_margin : Option ℚ
  mass_excess_calculated : CalculatedType
  binding_energy_per_nucleon : Option ℚ
  binding_energy_per_nucleon_margin : Option ℚ
  binding_energy_per_nucleon_calculated : CalculatedType
  beta_decay_energy : Option ℚ
  beta_decay_energy_margin : Option ℚ
  beta_decay_energy_calculated : CalculatedType
  atomic_mass : Option ℚ
  atomic_mass_margin : Option ℚ
  atomic_mass_margin_calculated : CalculatedType
deriving DecidableEq, Repr

/-- One of the four identical quantity blocks of AtomicTableEntry.from_row:
presence is decided by the value field at index i being nonempty; a present
quantity unconditionally parses the margin field at i+1 as a float and reads
the provenance field at i+2.  The scale is the unit multiplier.  A failed
float parse or a missing field (ValueError / IndexError) is none. -/
def readQuantity (row : List String) (i : ℕ) (scale : ℚ) :
    Option (Option ℚ × Option ℚ × CalculatedType) :=
  match row.get? i with
  | none => none
  | some v =>
    if v = "" then some (none, none, CalculatedType.Absent)
    else
      match pyFloat? v, row.get? (i + 1) with
      | some x, some mS =>
        match pyFloat? mS, row.get? (i + 2) with
        | some m, some cS =>
            some (some (x * scale), some (m * scale), CalculatedType.from_str cS)
        | _, _ => none
      | _, _ => none

/-- AtomicTableEntry.from_row from the source: integer fields from columns
0-2, element from column 3, then four quantity blocks at columns 4, 7, 10
and 13 (energies scaled by 1e-3 MeV, the atomic mass by one dalton). -/
def from_row (row : List String) : Option AtomicTableEntry :=
  match (row.get? 0).bind pyInt?, (row.get? 1).bind pyInt?, (row.get? 2).bind pyInt?,
        row.get? 3, readQuantity row 4 (1/1000), readQuantity row 7 (1/1000),
        readQuantity row 10 (1/1000), readQuantity row 13 1 with
  | some n, some z, some a, some el, some me, some ben, some bde, some am =>
      some ⟨n, z, a, el, me.1, me.2.1, me.2.2, ben.1, ben.2.1, ben.2.2,
            bde.1, bde.2.1, bde.2.2, am.1, am.2.1, am.2.2⟩
  | _, _, _, _, _, _, _, _ => none

/-! ## nuclear_box.py : physics model -/

/-- Volume coefficient of the liquid-drop formula, in MeV. -/
noncomputable def BINDING_FACTOR_VOLUME : ℝ := 15.835

/-- Surface coefficient, in MeV. -/
noncomputable def BINDING_FACTOR_SURFACE : ℝ := 18.33

/-- Coulomb coefficient, in MeV. -/
noncomputable def BINDING_FACTOR_CHARGE : ℝ := 0.714

/-- Asymmetry coefficient, in MeV. -/
noncomputable def BINDING_FACTOR_SYMMETRY : ℝ := 23.20

/-- Pairing coefficient, in MeV. -/
noncomputable def BINDING_FACTOR_PARITY : ℝ := 11.20

/-- Mass-energy equivalence constant, in MeV per dalton. -/
noncomputable def ATOMIC_MASS_ENERGY_EQUIVALENCE : ℝ := 931.49410242

/-- Proton rest mass, in dalton. -/
noncomputable def PROTON_MASS : ℝ := 1.0072765

/-- Neutron rest mass, in dalton. -/
noncomputable def NEUTRON_MASS : ℝ := 1.0086649

/-- Electron rest mass, in dalton. -/
noncomputable def ELECTRON_MASS : ℝ := 0.00054858

/-- The three tabulated hydrogen isotope masses, in dalton. -/
noncomputable def HYDROGEN_ISOTOPE_MASSES : List ℝ :=
  [1.00782503223, 2.01410177812, 3.01604927790]

/-- Nuclide dataclass from the source.  As in the source, the second field
(holding the mass number A) is named atomic_number. -/
structure Nuclide where
  protons : ℕ
  atomic_number : ℕ
deriving DecidableEq, Repr

/-- Nuclide.neutrons: atomic_number - protons, a Python int. -/
def Nuclide.neutrons (s : Nuclide) : ℤ := (s.atomic_number : ℤ) - (s.protons : ℤ)

/-- The pairing variable of approximate_binding_energy, lines 174-176 of the
source: 1 if protons and neutrons are both odd, -1 if both even, 0 else. -/
def Nuclide.parity (s : Nuclide) : ℤ :=
  if ¬(s.protons % 2 = 0) ∧ ¬(s.neutrons % 2 = 0) then 1
  else if s.protons % 2 = 0 ∧ s.neutrons % 2 = 0 then -1
  else 0

/-- The light-isotope branch body of approximate_binding_energy (lines
170-173): constituent masses minus the tabulated isotope mass, indexed by
atomic_number - 1, times the mass-energy equivalence constant.  The model is
meaningful for atomic_number between 1 and 3, the only values on which the
branch is taken (Python's negative-index semantics at atomic_number = 0 is
not modelled). -/
noncomputable def Nuclide.mass_difference_energy (s : Nuclide) : ℝ :=
  ((s.neutrons : ℝ) * NEUTRON_MASS + PROTON_MASS + ELECTRON_MASS
    - HYDROGEN_ISOTOPE_MASSES.getD (s.atomic_number - 1) 0) * ATOMIC_MASS_ENERGY_EQUIVALENCE

/-- The liquid-drop branch body of approximate_binding_energy (lines
177-185), with real powers modelling Python float exponentiation. -/
noncomputable def Nuclide.liquid_drop_energy (s : Nuclide) : ℝ :=
  BINDING_FACTOR_VOLUME * (s.atomic_number : ℝ)
    - BINDING_FACTOR_SURFACE * (s.atomic_number : ℝ) ^ ((2 : ℝ) / 3)
    - BINDING_FACTOR_CHARGE * (s.protons : ℝ) ^ 2 / (s.atomic_number : ℝ) ^ ((1 : ℝ) / 3)
    - BINDING_FACTOR_SYMMETRY * ((s.atomic_number : ℝ) - 2 * (s.protons : ℝ)) ^ 2
        / (s.atomic_number : ℝ)
    - BINDING_FACTOR_PARITY * (s.parity : ℝ) / (s.atomic_number : ℝ) ^ ((1 : ℝ) / 2)

/-- Nuclide.approximate_binding_energy: the light-isotope branch for
protons = 1 and atomic_number at most 3, the liquid-drop formula otherwise. -/
noncomputable def Nuclide.approximate_binding_energy (s : Nuclide) : ℝ :=
  if s.protons = 1 ∧ s.atomic_number ≤ 3 then s.mass_difference_energy
  else s.liquid_drop_energy

/-- Nuclide.approximate_binding_energy_per_nucleon: binding energy divided by
the mass number. -/
noncomputable def Nuclide.approximate_binding_energy_per_nucleon (s : Nuclide) : ℝ :=
  s.approximate_binding_energy / (s.atomic_number : ℝ)

/-- Model of Python round(): round half to even, otherwise to the nearest
integer (Mathlib's round rounds halves up, so the half case is split off). -/
noncomputable def pyRound (x : ℝ) : ℤ :=
  if x - ⌊x⌋ = 1/2 then (if Even ⌊x⌋ then ⌊x⌋ else ⌊x⌋ + 1) else round x

/-- minimal_binding_energy_protons from the source: the closed-form
minimizer of the liquid-drop mass at fixed mass number, rounded. -/
noncomputable def minimal_binding_energy_protons (atomic_number : ℕ) : ℤ :=
  pyRound ((atomic_number : ℝ) / 2
    * (1 + (NEUTRON_MASS - PROTON_MASS) * ATOMIC_MASS_ENERGY_EQUIVALENCE
          / 4 / BINDING_FACTOR_SYMMETRY)
    / (1 + BINDING_FACTOR_CHARGE * (atomic_number : ℝ) ^ ((2 : ℝ) / 3)
          / 4 / BINDING_FACTOR_SYMMETRY))

/-- The stability estimator written as the specification states it, for the
refinement comparison: Z = (A/2)[1 + (m_n - m_p) c^2 / (4 a_A)] divided by
[1 + a_C A^(2/3) / (4 a_A)]. -/
noncomputable def spec_stability_Z (A : ℕ) : ℝ :=
  ((A : ℝ) / 2)
    * (1 + (NEUTRON_MASS - PROTON_MASS) * ATOMIC_MASS_ENERGY_EQUIVALENCE
          / (4 * BINDING_FACTOR_SYMMETRY))
    / (1 + BINDING_FACTOR_CHARGE * (A : ℝ) ^ ((2 : ℝ) / 3)
          / (4 * BINDING_FACTOR_SYMMETRY))

/-! ## Helper lemmas about the Row Parser -/

lemma parse_quantity_star {row : List String} {i : ℕ} (h : row.get? i = some "*") :
    parse_quantity row i = some (1, [Cell.s "", Cell.s "", Cell.s ABSENT_MARKER]) := by
  unfold parse_quantity
  rw [h]
  simp [ABSENT_CHARACTER]

lemma parse_quantity_pair {row : List String} {i : ℕ} {t t2 : String} {v m : ℚ}
    (ht : row.get? i = some t) (hstar : t ≠ ABSENT_CHARACTER)
    (hv : pyFloat? (stripEstimated t) = some v)
    (ht2 : row.get? (i + 1) = some t2)
    (hm : pyFloat? (stripEstimated t2) = some m) :
    parse_quantity row i = some (2, [Cell.f v, Cell.f m,
      Cell.s (if '#' ∈ t.toList then ESTIMATED_MARKER else CALCULATED_MARKER)]) := by
  unfold parse_quantity
  simp only [ht, hv, ht2, hm, if_neg hstar]

lemma parse_quantity_shape {row : List String} {i : ℕ} {a : ℕ} {q : List Cell}
    (h : parse_quantity row i = some (a, q)) : ∃ c1 c2 c3, q = [c1, c2, c3] := by
  unfold parse_quantity at h
  split at h
  · exact absurd h (by simp)
  · split at h
    · exact ⟨_, _, _, by injection h with h; injection h with h1 h2; exact h2.symm⟩
    · split at h
      · split at h
        · exact ⟨_, _, _, by injection h with h; injection h with h1 h2; exact h2.symm⟩
        · exact absurd h (by simp)
      · exact absurd h (by simp)

/-- Characters that can occur in a token accepted by the float grammar. -/
def floatTokenChar (c : Char) : Bool :=
  c.isDigit || c = '.' || c = 'e' || c = 'E' || c = '+' || c = '-'

lemma digit_floatTokenChar {c : Char} (h : c.isDigit = true) : floatTokenChar c = true := by
  simp [floatTokenChar, h]

lemma allDigitsVal_chars {cs : List Char} {n : ℕ} (h : allDigitsVal cs = some n) :
    ∀ c ∈ cs, c.isDigit = true := by
  unfold allDigitsVal at h
  split at h
  · rename_i hcond
    rw [← List.all_eq_true]
    exact hcond.2
  · exact absurd h (by simp)

lemma parseExp_chars {cs : List Char} {e : ℤ} (h : parseExp cs = some e) :
    ∀ c ∈ cs, floatTokenChar c = true := by
  match cs with
  | [] => intro c hc; exact absurd hc (by simp)
  | c0 :: rest =>
    simp only [parseExp] at h
    intro x hx
    split at h
    · rename_i hc0
      subst hc0
      cases hh : allDigitsVal rest with
      | none => rw [hh] at h; exact absurd h (by simp)
      | some n =>
        rcases List.mem_cons.mp hx with rfl | hx2
        · decide
        · exact digit_floatTokenChar (allDigitsVal_chars hh x hx2)
    · split at h
      · rename_i hc0
        subst hc0
        cases hh : allDigitsVal rest with
        | none => rw [hh] at h; exact absurd h (by simp)
        | some n =>
          rcases List.mem_cons.mp hx with rfl | hx2
          · decide
          · exact digit_floatTokenChar (allDigitsVal_chars hh x hx2)
      · cases hh : allDigitsVal (c0 :: rest) with
        | none => rw [hh] at h; exact absurd h (by simp)
        | some n => exact digit_floatTokenChar (allDigitsVal_chars hh x hx)

lemma mantissaExp_chars {m v : ℚ} {cs : List Char} (h : mantissaExp m cs = some v) :
    ∀ c ∈ cs, floatTokenChar c = true := by
  match cs with
  | [] => intro c hc; exact absurd hc (by simp)
  | c0 :: rest =>
    simp only [mantissaExp] at h
    intro x hx
    split at h
    · rename_i hc0
      cases hh : parseExp rest with
      | none => rw [hh] at h; exact absurd h (by simp)
      | some e =>
        rcases List.mem_cons.mp hx with rfl | hx2
        · rcases hc0 with rfl | rfl <;> decide
        · exact parseExp_chars hh x hx2
    · exact absurd h (by simp)

lemma pyFloatFrac_chars {ds r2 : List Char} {v : ℚ} (h : pyFloatFrac ds r2 = some v) :
    ∀ c ∈ r2, floatTokenChar c = true := by
  unfold pyFloatFrac at h
  split at h
  · exact absurd h (by simp)
  · intro x hx
    have hsplit := List.takeWhile_append_dropWhile (p := fun c => c.isDigit) (l := r2)
    rw [← hsplit] at hx
    rcases List.mem_append.mp hx with hx1 | hx2
    · exact digit_floatTokenChar (List.mem_takeWhile_imp hx1)
    · exact mantissaExp_chars h x hx2

lemma pyFloatRest_chars {ds rest : List Char} {v : ℚ} (h : pyFloatRest ds rest = some v) :
    ∀ c ∈ rest, floatTokenChar c = true := by
  match rest with
  | [] => intro c hc; exact absurd hc (by simp)
  | c0 :: r2 =>
    simp only [pyFloatRest] at h
    intro x hx
    split at h
    · rename_i hc0
      subst hc0
      rcases List.mem_cons.mp hx with rfl | hx2
      · decide
      · exact pyFloatFrac_chars h x hx2
    · split at h
      · exact absurd h (by simp)
      · exact mantissaExp_chars h x hx

lemma pyFloatAux_chars {cs : List Char} {v : ℚ} (h : pyFloatAux cs = some v) :
    ∀ c ∈ cs, floatTokenChar c = true := by
  intro x hx
  have hsplit := List.takeWhile_append_dropWhile (p := fun c => c.isDigit) (l := cs)
  rw [← hsplit] at hx
  rcases List.mem_append.mp hx with hx1 | hx2
  · exact digit_floatTokenChar (List.mem_takeWhile_imp hx1)
  · exact pyFloatRest_chars h x hx2

/-- Any token containing the estimate marker is rejected by float(). -/
lemma hash_not_parseable {s : String} (h : '#' ∈ s.toList) :
    is_parseable_as_float s = false := by
  suffices hn : pyFloat? s = none by simp [is_parseable_as_float, hn]
  unfold pyFloat?
  match hs : s.toList with
  | [] => rfl
  | c :: rest =>
    rw [hs] at h
    simp only [pyFloatSigned]
    split
    · rename_i hplus
      subst hplus
      cases hh : pyFloatAux rest with
      | none => rfl
      | some v =>
        rcases List.mem_cons.mp h with hc | hc
        · exact absurd hc.symm (by decide)
        · have := pyFloatAux_chars hh _ hc
          exact absurd this (by decide)
    · split
      · rename_i hne hminus
        subst hminus
        cases hh : pyFloatAux rest with
        | none => rfl
        | some v =>
          rcases List.mem_cons.mp h with hc | hc
          · exact absurd hc.symm (by decide)
          · have := pyFloatAux_chars hh _ hc
            exact absurd this (by decide)
      · cases hh : pyFloatAux (c :: rest) with
        | none => rfl
        | some v =>
          have := pyFloatAux_chars hh _ h
          exact absurd this (by decide)

/-! ## Helper lemmas about the table loader and the physics model -/

lemma readQuantity_none {row : List String} {i : ℕ} {scale : ℚ} {v m : String}
    (hv : row.get? i = some v) (hne : v ≠ "") (hm : row.get? (i + 1) = some m)
    (hmf : pyFloat? m = none) : readQuantity row i scale = none := by
  unfold readQuantity
  simp only [hv, if_neg hne, hm]
  cases hpv : pyFloat? v <;> simp [hmf]

lemma readQuantity_inv {row : List String} {i : ℕ} {scale : ℚ}
    {out : Option ℚ × Option ℚ × CalculatedType} (h : readQuantity row i scale = some out) :
    (out.1 = none ↔ out.2.1 = none) ∧ (out.1 = none → out.2.2 = CalculatedType.Absent) := by
  unfold readQuantity at h
  split at h
  · exact absurd h (by simp)
  · split at h
    · injection h with h
      subst h
      simp
    · split at h
      · split at h
        · injection h with h
          subst h
          simp
        · exact absurd h (by simp)
      · exact absurd h (by simp)

lemma from_row_some {row : List String} {e : AtomicTableEntry} (h : from_row row = some e) :
    ∃ me ben bde am,
      readQuantity row 4 (1/1000) = some me ∧
      readQuantity row 7 (1/1000) = some ben ∧
      readQuantity row 10 (1/1000) = some bde ∧
      readQuantity row 13 1 = some am ∧
      e.mass_excess = me.1 ∧ e.mass_excess_margin = me.2.1 ∧
      e.mass_excess_calculated = me.2.2 ∧
      e.binding_energy_per_nucleon = ben.1 ∧ e.binding_energy_per_nucleon_margin = ben.2.1 ∧
      e.binding_energy_per_nucleon_calculated = ben.2.2 ∧
      e.beta_decay_energy = bde.1 ∧ e.beta_decay_energy_margin = bde.2.1 ∧
      e.beta_decay_energy_calculated = bde.2.2 ∧
      e.atomic_mass = am.1 ∧ e.atomic_mass_margin = am.2.1 ∧
      e.atomic_mass_margin_calculated = am.2.2 := by
  unfold from_row at h
  split at h
  · rename_i n z a el me ben bde am hn hz ha hel hme hben hbde ham
    injection h with h
    subst h
    exact ⟨me, ben, bde, am, hme, hben, hbde, ham, rfl, rfl, rfl, rfl, rfl, rfl,
      rfl, rfl, rfl, rfl, rfl, rfl⟩
  · exact absurd h (by simp)

lemma from_row_none_of_quantity {row : List String}
    (h : readQuantity row 4 (1/1000) = none ∨ readQuantity row 7 (1/1000) = none ∨
         readQuantity row 10 (1/1000) = none ∨ readQuantity row 13 1 = none) :
    from_row row = none := by
  unfold from_row
  split
  · rename_i n z a el me ben bde am hn hz ha hel hme hben hbde ham
    rcases h with h | h | h | h
    · rw [h] at hme; exact absurd hme (by simp)
    · rw [h] at hben; exact absurd hben (by simp)
    · rw [h] at hbde; exact absurd hbde (by simp)
    · rw [h] at ham; exact absurd ham (by simp)
  · rfl

lemma pyRound_ratCast (q : ℚ) (h : q - ⌊q⌋ ≠ 1/2) : pyRound ((q : ℝ)) = round q := by
  unfold pyRound
  rw [Rat.floor_cast]
  rw [if_neg, Rat.round_cast]
  intro hc
  apply h
  have hcast : ((q - (⌊q⌋ : ℚ) : ℚ) : ℝ) = ((1/2 : ℚ) : ℝ) := by push_cast; linarith
  exact_mod_cast hcast

/-- Success inversion for convert_row_parts: the shape of a successfully
converted row in terms of the intermediate parse_quantity results. -/
lemma convert_row_parts_some {parts : List String} {out : List Cell}
    (h : convert_row_parts parts = some out) :
    ∃ n z a el t5,
      (parts.get? 1).bind pyInt? = some n ∧
      (parts.get? 2).bind pyInt? = some z ∧
      (parts.get? 3).bind pyInt? = some a ∧
      parts.get? 4 = some el ∧
      parts.get? 5 = some t5 ∧
      ∃ adj1 c1 c2 c3 adj2 d1 d2 d3 adj3 e1 e2 e3 am,
        parse_quantity parts (if is_parseable_as_float t5 then 5 else 6)
          = some (adj1, [c1, c2, c3]) ∧
        parse_quantity parts ((if is_parseable_as_float t5 then 5 else 6) + adj1)
          = some (adj2, [d1, d2, d3]) ∧
        parse_quantity parts ((if is_parseable_as_float t5 then 5 else 6) + adj1 + adj2 + 1)
          = some (adj3, [e1, e2, e3]) ∧
        atomic_mass_part parts ((if is_parseable_as_float t5 then 5 else 6) + adj1 + adj2 + 1 + adj3)
          = some am ∧
        out = Cell.i n :: Cell.i z :: Cell.i a :: Cell.s el
                :: c1 :: c2 :: c3 :: d1 :: d2 :: d3 :: e1 :: e2 :: e3 :: am := by
  unfold convert_row_parts at h
  split at h
  case _ n z a el t5 hn hz ha hel ht5 =>
    refine ⟨n, z, a, el, t5, hn, hz, ha, hel, ht5, ?_⟩
    simp only at h
    split at h
    · exact absurd h (by simp)
    case _ adj1 q1 hq1 =>
      split at h
      · exact absurd h (by simp)
      case _ adj2 q2 hq2 =>
        split at h
        · exact absurd h (by simp)
        case _ adj3 q3 hq3 =>
          split at h
          · exact absurd h (by simp)
          case _ q4 hq4 =>
            obtain ⟨c1, c2, c3, rfl⟩ := parse_quantity_shape hq1
            obtain ⟨d1, d2, d3, rfl⟩ := parse_quantity_shape hq2
            obtain ⟨e1, e2, e3, rfl⟩ := parse_quantity_shape hq3
            refine ⟨adj1, c1, c2, c3, adj2, d1, d2, d3, adj3, e1, e2, e3, q4,
              hq1, hq2, hq3, hq4, ?_⟩
            injection h with h
            simp [← h]
  · exact absurd h (by simp)
example : parse_quantity ["#1234.5", "12.3"] 0 =
    some (2, [Cell.f (2469/2), Cell.f (123/10), Cell.s "estimated"]) := by
  norm_num +decide [parse_quantity, stripEstimated, pyFloat?, pyFloatSigned, pyFloatAux,
    pyFloatRest, pyFloatFrac, mantissaExp, digitsToNat, ABSENT_CHARACTER, ESTIMATED_MARKER,
    toNat_c1, toNat_c2, toNat_c3, toNat_c4, toNat_c5]

/-! ## Claim C9 -/

/-- C9: for every quantity whose raw value token is present (not the absence
marker) the Row Parser strips the estimate marker from both the value and
the margin token before numeric parsing, consumes two tokens, and yields the
two parsed numbers with provenance estimated exactly when the raw value
token carried the marker, calculated otherwise. -/
theorem claim_C9 (row : List String) (i : ℕ) (t t2 : String) (v m : ℚ)
    (ht : row.get? i = some t) (hstar : t ≠ "*")
    (hv : pyFloat? (stripEstimated t) = some v)
    (ht2 : row.get? (i + 1) = some t2)
    (hm : pyFloat? (stripEstimated t2) = some m) :
    parse_quantity row i =
      some (2, [Cell.f v, Cell.f m,
        Cell.s (if '#' ∈ t.toList then "estimated" else "calculated")]) := by
  have h := parse_quantity_pair ht (by simpa [ABSENT_CHARACTER] using hstar) hv ht2 hm
  simpa [ESTIMATED_MARKER, CALCULATED_MARKER] using h

/-- Witness for C9 at the specification's example tokens. -/
theorem claim_C9_witness :
    parse_quantity ["#1234.5", "12.3"] 0 =
      some (2, [Cell.f (1234.5 : ℚ), Cell.f (12.3 : ℚ), Cell.s "estimated"]) := by
  have h := claim_C9 ["#1234.5", "12.3"] 0 "#1234.5" "12.3" (1234.5 : ℚ) (12.3 : ℚ)
    rfl (by decide)
    (by norm_num +decide [stripEstimated, pyFloat?, pyFloatSigned, pyFloatAux, pyFloatRest,
          pyFloatFrac, mantissaExp, digitsToNat, toNat_c1, toNat_c2, toNat_c3, toNat_c4, toNat_c5])
    rfl
    (by norm_num +decide [stripEstimated, pyFloat?, pyFloatSigned, pyFloatAux, pyFloatRest,
          pyFloatFrac, mantissaExp, digitsToNat, toNat_c1, toNat_c2, toNat_c3])
  rw [if_pos (by decide)] at h
  exact h

/-! ## Claim C8 -/

/-- C8 counterexample: on a line with no decay-mode annotation whose
mass-excess field token is the absence marker, the Row Parser does not
record an absent mass excess: the star itself is swallowed by the
conditional annotation skip (a star is not parseable as a float) and the
mass excess is read from the following two tokens instead. -/
theorem claim_C8_counterexample :
    convert_row_parts ["0", "1", "1", "2", "H", "*", "100.0", "0.5", "200.0", "0.4",
        "B-", "300.0", "0.2", "2.0", "400.0", "0.9"] =
      some [Cell.i 1, Cell.i 1, Cell.i 2, Cell.s "H",
        Cell.f 100, Cell.f (1/2), Cell.s "calculated",
        Cell.f 200, Cell.f (2/5), Cell.s "calculated",
        Cell.f 300, Cell.f (1/5), Cell.s "calculated",
        Cell.f (2 + 400/1000000), Cell.f (9/10), Cell.s "calculated"] ∧
      Cell.f 100 ≠ Cell.s "" := by
  constructor
  · norm_num +decide [convert_row_parts, atomic_mass_part, parse_quantity,
      is_parseable_as_float, stripEstimated, pyFloat?, pyFloatSigned, pyFloatAux, pyFloatRest,
      pyFloatFrac, mantissaExp, pyInt?, allDigitsVal, digitsToNat,
      ABSENT_CHARACTER, ABSENT_MARKER, ESTIMATED_MARKER, CALCULATED_MARKER,
      toNat_c0, toNat_c1, toNat_c2, toNat_c3, toNat_c4, toNat_c5, toNat_c9]
  · decide

/-- C8 amended: when the absence marker sits at the position the Row Parser
actually reads the mass excess from (after the conditional annotation skip),
the parser records the absent Measurement (empty value, empty margin,
provenance absent) and consumes exactly one token, the next quantity being
parsed from the immediately following token.  On an annotation-free line the
star at the mass-excess position is instead consumed by the skip itself. -/
theorem claim_C8_amended (parts : List String) (t5 : String) (out : List Cell)
    (h5 : parts.get? 5 = some t5)
    (hstar : parts.get? (if is_parseable_as_float t5 then 5 else 6) = some "*")
    (h : convert_row_parts parts = some out) :
    (out.get? 4 = some (Cell.s "") ∧ out.get? 5 = some (Cell.s "") ∧
     out.get? 6 = some (Cell.s "absent")) ∧
    ∃ adj2 d1 d2 d3,
      parse_quantity parts ((if is_parseable_as_float t5 then 5 else 6) + 1)
        = some (adj2, [d1, d2, d3]) ∧
      out.get? 7 = some d1 ∧ out.get? 8 = some d2 ∧ out.get? 9 = some d3 := by
  obtain ⟨n, z, a, el, t5', hn, hz, ha, hel, ht5', adj1, c1, c2, c3, adj2, d1, d2, d3,
    adj3, e1, e2, e3, am, hq1, hq2, hq3, hq4, hout⟩ := convert_row_parts_some h
  have ht5eq : t5' = t5 := by
    rw [h5] at ht5'
    injection ht5' with hv
    exact hv.symm
  subst ht5eq
  have hstar' := parse_quantity_star hstar
  rw [hq1] at hstar'
  have hcomp : adj1 = 1 ∧ c1 = Cell.s "" ∧ c2 = Cell.s "" ∧ c3 = Cell.s "absent" := by
    simpa [ABSENT_MARKER, Prod.ext_iff] using hstar'
  obtain ⟨h1, h2, h3, h4⟩ := hcomp
  subst h1
  subst h2
  subst h3
  subst h4
  subst hout
  exact ⟨⟨rfl, rfl, rfl⟩, adj2, d1, d2, d3, hq2, rfl, rfl, rfl⟩

/-- Witness for C8 amended: a line carrying a decay-mode annotation followed
by an absent mass excess. -/
theorem claim_C8_witness :
    (([Cell.i 1, Cell.i 1, Cell.i 2, Cell.s "H",
       Cell.s "", Cell.s "", Cell.s "absent",
       Cell.f 100, Cell.f (1/2), Cell.s "calculated",
       Cell.f 300, Cell.f (1/5), Cell.s "calculated",
       Cell.f (2 + 400/1000000), Cell.f (9/10), Cell.s "calculated"] : List Cell).get? 4
        = some (Cell.s "") ∧
     ([Cell.i 1, Cell.i 1, Cell.i 2, Cell.s "H",
       Cell.s "", Cell.s "", Cell.s "absent",
       Cell.f 100, Cell.f (1/2), Cell.s "calculated",
       Cell.f 300, Cell.f (1/5), Cell.s "calculated",
       Cell.f (2 + 400/1000000), Cell.f (9/10), Cell.s "calculated"] : List Cell).get? 5
        = some (Cell.s "") ∧
     ([Cell.i 1, Cell.i 1, Cell.i 2, Cell.s "H",
       Cell.s "", Cell.s "", Cell.s "absent",
       Cell.f 100, Cell.f (1/2), Cell.s "calculated",
       Cell.f 300, Cell.f (1/5), Cell.s "calculated",
       Cell.f (2 + 400/1000000), Cell.f (9/10), Cell.s "calculated"] : List Cell).get? 6
        = some (Cell.s "absent")) ∧
    ∃ adj2 d1 d2 d3,
      parse_quantity ["0", "1", "1", "2", "H", "B-", "*", "100.0", "0.5",
          "B-", "300.0", "0.2", "2.0", "400.0", "0.9"]
        ((if is_parseable_as_float "B-" then 5 else 6) + 1) = some (adj2, [d1, d2, d3]) ∧
      ([Cell.i 1, Cell.i 1, Cell.i 2, Cell.s "H",
        Cell.s "", Cell.s "", Cell.s "absent",
        Cell.f 100, Cell.f (1/2), Cell.s "calculated",
        Cell.f 300, Cell.f (1/5), Cell.s "calculated",
        Cell.f (2 + 400/1000000), Cell.f (9/10), Cell.s "calculated"] : List Cell).get? 7
          = some d1 ∧
      ([Cell.i 1, Cell.i 1, Cell.i 2, Cell.s "H",
        Cell.s "", Cell.s "", Cell.s "absent",
        Cell.f 100, Cell.f (1/2), Cell.s "calculated",
        Cell.f 300, Cell.f (1/5), Cell.s "calculated",
        Cell.f (2 + 400/1000000), Cell.f (9/10), Cell.s "calculated"] : List Cell).get? 8
          = some d2 ∧
      ([Cell.i 1, Cell.i 1, Cell.i 2, Cell.s "H",
        Cell.s "", Cell.s "", Cell.s "absent",
        Cell.f 100, Cell.f (1/2), Cell.s "calculated",
        Cell.f 300, Cell.f (1/5), Cell.s "calculated",
        Cell.f (2 + 400/1000000), Cell.f (9/10), Cell.s "calculated"] : List Cell).get? 9
          = some d3 :=
  claim_C8_amended
    ["0", "1", "1", "2", "H", "B-", "*", "100.0", "0.5", "B-", "300.0", "0.2",
     "2.0", "400.0", "0.9"] "B-"
    [Cell.i 1, Cell.i 1, Cell.i 2, Cell.s "H",
     Cell.s "", Cell.s "", Cell.s "absent",
     Cell.f 100, Cell.f (1/2), Cell.s "calculated",
     Cell.f 300, Cell.f (1/5), Cell.s "calculated",
     Cell.f (2 + 400/1000000), Cell.f (9/10), Cell.s "calculated"]
    rfl (by decide)
    (by norm_num +decide [convert_row_parts, atomic_mass_part, parse_quantity,
      is_parseable_as_float, stripEstimated, pyFloat?, pyFloatSigned, pyFloatAux, pyFloatRest,
      pyFloatFrac, mantissaExp, pyInt?, allDigitsVal, digitsToNat,
      ABSENT_CHARACTER, ABSENT_MARKER, ESTIMATED_MARKER, CALCULATED_MARKER,
      toNat_c0, toNat_c1, toNat_c2, toNat_c3, toNat_c4, toNat_c5, toNat_c9])

/-! ## Claim C1 -/

/-- C1 counterexample: on a line with no decay-mode annotation whose
mass-excess token carries the estimate marker, the Row Parser does skip that
token as if it were a decay-mode annotation (a hash-marked token is not
parseable as a float), so the mass excess is not recorded as 1234.5 with
provenance estimated: the following margin token 12.3 is recorded as the
mass-excess value with provenance calculated. -/
theorem claim_C1_counterexample :
    is_parseable_as_float "#1234.5" = false ∧
    convert_row_parts ["0", "1", "1", "2", "H", "#1234.5", "12.3", "0.5", "7071.0", "0.4",
        "B-", "999.0", "0.2", "2.0", "7825.0", "0.9"] =
      some [Cell.i 1, Cell.i 1, Cell.i 2, Cell.s "H",
        Cell.f (123/10), Cell.f (1/2), Cell.s "calculated",
        Cell.f 7071, Cell.f (2/5), Cell.s "calculated",
        Cell.f 999, Cell.f (1/5), Cell.s "calculated",
        Cell.f (2 + 7825/1000000), Cell.f (9/10), Cell.s "calculated"] ∧
    (123/10 : ℚ) ≠ (1234.5 : ℚ) := by
  refine ⟨by decide, ?_, by norm_num⟩
  norm_num +decide [convert_row_parts, atomic_mass_part, parse_quantity,
    is_parseable_as_float, stripEstimated, pyFloat?, pyFloatSigned, pyFloatAux, pyFloatRest,
    pyFloatFrac, mantissaExp, pyInt?, allDigitsVal, digitsToNat,
    ABSENT_CHARACTER, ABSENT_MARKER, ESTIMATED_MARKER, CALCULATED_MARKER,
    toNat_c0, toNat_c1, toNat_c2, toNat_c3, toNat_c4, toNat_c5, toNat_c7, toNat_c8, toNat_c9]

/-- C1 amended: the conditional one-token skip fires for every token at
position 5 that is not parseable as a float, and a token containing the
estimate marker is never parseable as a float; hence on an annotation-free
line whose mass-excess token carries the marker, that token is skipped as a
decay-mode annotation and the mass-excess Measurement is parsed from
position 6 onwards. -/
theorem claim_C1_amended :
    (∀ t : String, '#' ∈ t.toList → is_parseable_as_float t = false) ∧
    (∀ (parts : List String) (t5 : String) (out : List Cell),
      parts.get? 5 = some t5 → is_parseable_as_float t5 = false →
      convert_row_parts parts = some out →
      ∃ adj1 c1 c2 c3, parse_quantity parts 6 = some (adj1, [c1, c2, c3]) ∧
        out.get? 4 = some c1 ∧ out.get? 5 = some c2 ∧ out.get? 6 = some c3) := by
  constructor
  · intro t ht
    exact hash_not_parseable ht
  · intro parts t5 out h5 hfalse h
    obtain ⟨n, z, a, el, t5', hn, hz, ha, hel, ht5', adj1, c1, c2, c3, adj2, d1, d2, d3,
      adj3, e1, e2, e3, am, hq1, hq2, hq3, hq4, hout⟩ := convert_row_parts_some h
    have ht5eq : t5' = t5 := by
      rw [h5] at ht5'
      injection ht5' with hv
      exact hv.symm
    subst ht5eq
    rw [if_neg (by simp [hfalse])] at hq1
    subst hout
    exact ⟨adj1, c1, c2, c3, hq1, rfl, rfl, rfl⟩

/-- Witness for C1 amended at the counterexample line. -/
theorem claim_C1_witness :
    ∃ adj1 c1 c2 c3,
      parse_quantity ["0", "1", "1", "2", "H", "#1234.5", "12.3", "0.5", "7071.0", "0.4",
          "B-", "999.0", "0.2", "2.0", "7825.0", "0.9"] 6 = some (adj1, [c1, c2, c3]) ∧
      ([Cell.i 1, Cell.i 1, Cell.i 2, Cell.s "H",
        Cell.f (123/10), Cell.f (1/2), Cell.s "calculated",
        Cell.f 7071, Cell.f (2/5), Cell.s "calculated",
        Cell.f 999, Cell.f (1/5), Cell.s "calculated",
        Cell.f (2 + 7825/1000000), Cell.f (9/10), Cell.s "calculated"] : List Cell).get? 4
          = some c1 ∧
      ([Cell.i 1, Cell.i 1, Cell.i 2, Cell.s "H",
        Cell.f (123/10), Cell.f (1/2), Cell.s "calculated",
        Cell.f 7071, Cell.f (2/5), Cell.s "calculated",
        Cell.f 999, Cell.f (1/5), Cell.s "calculated",
        Cell.f (2 + 7825/1000000), Cell.f (9/10), Cell.s "calculated"] : List Cell).get? 5
          = some c2 ∧
      ([Cell.i 1, Cell.i 1, Cell.i 2, Cell.s "H",
        Cell.f (123/10), Cell.f (1/2), Cell.s "calculated",
        Cell.f 7071, Cell.f (2/5), Cell.s "calculated",
        Cell.f 999, Cell.f (1/5), Cell.s "calculated",
        Cell.f (2 + 7825/1000000), Cell.f (9/10), Cell.s "calculated"] : List Cell).get? 6
          = some c3 :=
  claim_C1_amended.2
    ["0", "1", "1", "2", "H", "#1234.5", "12.3", "0.5", "7071.0", "0.4",
     "B-", "999.0", "0.2", "2.0", "7825.0", "0.9"] "#1234.5"
    [Cell.i 1, Cell.i 1, Cell.i 2, Cell.s "H",
     Cell.f (123/10), Cell.f (1/2), Cell.s "calculated",
     Cell.f 7071, Cell.f (2/5), Cell.s "calculated",
     Cell.f 999, Cell.f (1/5), Cell.s "calculated",
     Cell.f (2 + 7825/1000000), Cell.f (9/10), Cell.s "calculated"]
    rfl (by decide)
    (by norm_num +decide [convert_row_parts, atomic_mass_part, parse_quantity,
      is_parseable_as_float, stripEstimated, pyFloat?, pyFloatSigned, pyFloatAux, pyFloatRest,
      pyFloatFrac, mantissaExp, pyInt?, allDigitsVal, digitsToNat,
      ABSENT_CHARACTER, ABSENT_MARKER, ESTIMATED_MARKER, CALCULATED_MARKER,
      toNat_c0, toNat_c1, toNat_c2, toNat_c3, toNat_c4, toNat_c5, toNat_c7, toNat_c8, toNat_c9])

/-! ## Claim C2 -/

/-- C2 counterexample: the atomic-mass Measurement's margin is the raw
remainder margin, not the remainder margin scaled by 1e-6: on a concrete
line with remainder margin token 0.9 the output margin cell is 0.9, and
0.9 differs from 0.9 scaled by 1e-6. -/
theorem claim_C2_counterexample :
    convert_row_parts ["0", "1", "1", "2", "H", "1234.5", "0.5", "7071.0", "0.4",
        "B-", "999.0", "0.2", "2.0", "7825.0", "0.9"] =
      some [Cell.i 1, Cell.i 1, Cell.i 2, Cell.s "H",
        Cell.f (2469/2), Cell.f (1/2), Cell.s "calculated",
        Cell.f 7071, Cell.f (2/5), Cell.s "calculated",
        Cell.f 999, Cell.f (1/5), Cell.s "calculated",
        Cell.f (2 + 7825/1000000), Cell.f (9/10), Cell.s "calculated"] ∧
    (9/10 : ℚ) ≠ (9/10 : ℚ) * (1/1000000) := by
  refine ⟨?_, by norm_num⟩
  norm_num +decide [convert_row_parts, atomic_mass_part, parse_quantity,
    is_parseable_as_float, stripEstimated, pyFloat?, pyFloatSigned, pyFloatAux, pyFloatRest,
    pyFloatFrac, mantissaExp, pyInt?, allDigitsVal, digitsToNat,
    ABSENT_CHARACTER, ABSENT_MARKER, ESTIMATED_MARKER, CALCULATED_MARKER,
    toNat_c0, toNat_c1, toNat_c2, toNat_c3, toNat_c4, toNat_c5, toNat_c7, toNat_c8, toNat_c9]

/-- C2 amended: the atomic-mass columns parse the fractional remainder with
parse_quantity, but an absent remainder (the star marker) makes the whole
row conversion fail (the absent placeholder cannot be combined numerically)
instead of yielding an absent Measurement; in the present case the value is
integer part plus remainder times 1e-6 and the remainder's margin and
provenance cells are propagated unchanged, the margin not being scaled. -/
theorem claim_C2_amended :
    (∀ (parts : List String) (index : ℕ), parts.get? (index + 1) = some "*" →
      atomic_mass_part parts index = none) ∧
    (∀ (parts : List String) (index adj : ℕ) (r ip : ℚ) (c2 c3 : Cell) (ipS : String),
      parse_quantity parts (index + 1) = some (adj, [Cell.f r, c2, c3]) →
      parts.get? index = some ipS → pyFloat? ipS = some ip →
      atomic_mass_part parts index = some [Cell.f (ip + r * (1/1000000)), c2, c3]) := by
  constructor
  · intro parts index h
    cases hb : (parts.get? index).bind pyFloat? <;>
      simp [atomic_mass_part, parse_quantity_star h, hb]
  · intro parts index adj r ip c2 c3 ipS hpq hips hipf
    have hb : (parts.get? index).bind pyFloat? = some ip := by
      rw [hips]
      simpa using hipf
    unfold atomic_mass_part
    rw [hpq, hb]

/-- Witness for C2 amended: the star case and the combination case at
concrete token lists. -/
theorem claim_C2_witness :
    atomic_mass_part ["2.0", "*"] 0 = none ∧
    atomic_mass_part ["2.0", "7825.0", "0.9"] 0 =
      some [Cell.f ((2 : ℚ) + 7825 * (1/1000000)), Cell.f (9/10), Cell.s "calculated"] := by
  constructor
  · exact claim_C2_amended.1 ["2.0", "*"] 0 rfl
  · exact claim_C2_amended.2 ["2.0", "7825.0", "0.9"] 0 2 7825 2 (Cell.f (9/10))
      (Cell.s "calculated") "2.0"
      (by norm_num +decide [parse_quantity, stripEstimated, pyFloat?, pyFloatSigned,
        pyFloatAux, pyFloatRest, pyFloatFrac, mantissaExp, digitsToNat,
        ABSENT_CHARACTER, CALCULATED_MARKER, toNat_c0, toNat_c2, toNat_c5, toNat_c7,
        toNat_c8, toNat_c9])
      rfl
      (by norm_num +decide [pyFloat?, pyFloatSigned, pyFloatAux, pyFloatRest, pyFloatFrac,
        mantissaExp, digitsToNat, toNat_c0, toNat_c2])

/-! ## Claim C10 -/

/-- C10: from_row decides the presence of each quantity solely by the value
field being empty (an empty value yields the absent triple no matter what
the margin and provenance fields hold), and a nonempty value field with a
margin field that does not parse as a float (in particular an empty margin)
makes the conversion of the whole row fail. -/
theorem claim_C10 :
    (∀ (row : List String) (i : ℕ) (scale : ℚ), row.get? i = some "" →
      readQuantity row i scale = some (none, none, CalculatedType.Absent)) ∧
    (∀ (row : List String) (i : ℕ) (v m : String),
      (i = 4 ∨ i = 7 ∨ i = 10 ∨ i = 13) →
      row.get? i = some v → v ≠ "" → row.get? (i + 1) = some m → pyFloat? m = none →
      from_row row = none) := by
  constructor
  · intro row i scale h
    unfold readQuantity
    rw [h]
    rfl
  · intro row i v m hi hv hne hm hmf
    apply from_row_none_of_quantity
    rcases hi with rfl | rfl | rfl | rfl
    · exact Or.inl (readQuantity_none hv hne hm hmf)
    · exact Or.inr (Or.inl (readQuantity_none hv hne hm hmf))
    · exact Or.inr (Or.inr (Or.inl (readQuantity_none hv hne hm hmf)))
    · exact Or.inr (Or.inr (Or.inr (readQuantity_none hv hne hm hmf)))

/-- Witness for C10: an empty value with junk margin and provenance fields
reads as absent, and a nonempty mass-excess value with an empty margin field
makes the row fail. -/
theorem claim_C10_witness :
    readQuantity ["1", "1", "2", "H", "", "junk", "junk"] 4 (1/1000)
      = some (none, none, CalculatedType.Absent) ∧
    from_row ["1", "1", "2", "H", "100.0", "", "calculated", "", "0", "0", "",
        "0", "0", "", "0", "0"] = none :=
  ⟨claim_C10.1 ["1", "1", "2", "H", "", "junk", "junk"] 4 (1/1000) rfl,
   claim_C10.2 ["1", "1", "2", "H", "100.0", "", "calculated", "", "0", "0", "",
        "0", "0", "", "0", "0"] 4 "100.0" ""
     (Or.inl rfl) rfl (by decide) rfl (by decide)⟩

/-! ## Claim C4 -/

/-- C4 counterexample: a row whose mass-excess value field is nonempty but
whose provenance field holds an unrecognized string loads to an entry with
provenance absent while value and margin are present, so the invariant
(provenance absent iff value and margin absent) fails on the read side. -/
theorem claim_C4_counterexample :
    (from_row ["1", "1", "2", "H", "100.0", "0.5", "bogus", "", "0", "0", "",
        "0", "0", "", "0", "0"]).map
      (fun e => (e.mass_excess, e.mass_excess_margin, e.mass_excess_calculated))
      = some (some (1/10), some (1/2000), CalculatedType.Absent) ∧
    (some (1/10 : ℚ) ≠ (none : Option ℚ)) := by
  refine ⟨?_, by simp⟩
  norm_num +decide [from_row, readQuantity, CalculatedType.from_str, pyFloat?, pyFloatSigned,
    pyFloatAux, pyFloatRest, pyFloatFrac, mantissaExp, pyInt?, allDigitsVal, digitsToNat,
    toNat_c0, toNat_c1, toNat_c2, toNat_c5]

/-- C4 amended: for every entry produced by from_row and each of its four
Measurements, the value is absent exactly when the margin is absent, and an
absent value forces provenance absent; the converse direction of the claimed
invariant fails, since a nonempty value field whose provenance field holds
an unrecognized string is mapped to provenance absent with value and margin
present. -/
theorem claim_C4_amended (row : List String) (e : AtomicTableEntry)
    (h : from_row row = some e) :
    ((e.mass_excess = none ↔ e.mass_excess_margin = none) ∧
      (e.mass_excess = none → e.mass_excess_calculated = CalculatedType.Absent)) ∧
    ((e.binding_energy_per_nucleon = none ↔ e.binding_energy_per_nucleon_margin = none) ∧
      (e.binding_energy_per_nucleon = none →
        e.binding_energy_per_nucleon_calculated = CalculatedType.Absent)) ∧
    ((e.beta_decay_energy = none ↔ e.beta_decay_energy_margin = none) ∧
      (e.beta_decay_energy = none → e.beta_decay_energy_calculated = CalculatedType.Absent)) ∧
    ((e.atomic_mass = none ↔ e.atomic_mass_margin = none) ∧
      (e.atomic_mass = none → e.atomic_mass_margin_calculated = CalculatedType.Absent)) := by
  obtain ⟨me, ben, bde, am, hme, hben, hbde, ham, e1, e2, e3, e4, e5, e6, e7, e8, e9,
    e10, e11, e12⟩ := from_row_some h
  refine ⟨?_, ?_, ?_, ?_⟩
  · rw [e1, e2, e3]
    exact readQuantity_inv hme
  · rw [e4, e5, e6]
    exact readQuantity_inv hben
  · rw [e7, e8, e9]
    exact readQuantity_inv hbde
  · rw [e10, e11, e12]
    exact readQuantity_inv ham

/-- Witness for C4 amended at a concrete well-formed row. -/
theorem claim_C4_witness :
    ((some (1/10 : ℚ) = none ↔ some (1/2000 : ℚ) = none) ∧
      (some (1/10 : ℚ) = none → CalculatedType.Calculated = CalculatedType.Absent)) ∧
    (((none : Option ℚ) = none ↔ (none : Option ℚ) = none) ∧
      ((none : Option ℚ) = none → CalculatedType.Absent = CalculatedType.Absent)) ∧
    (((none : Option ℚ) = none ↔ (none : Option ℚ) = none) ∧
      ((none : Option ℚ) = none → CalculatedType.Absent = CalculatedType.Absent)) ∧
    (((none : Option ℚ) = none ↔ (none : Option ℚ) = none) ∧
      ((none : Option ℚ) = none → CalculatedType.Absent = CalculatedType.Absent)) :=
  claim_C4_amended
    ["1", "1", "2", "H", "100.0", "0.5", "calculated", "", "0", "0", "",
     "0", "0", "", "0", "0"]
    ⟨1, 1, 2, "H", some (1/10), some (1/2000), CalculatedType.Calculated,
     none, none, CalculatedType.Absent, none, none, CalculatedType.Absent,
     none, none, CalculatedType.Absent⟩
    (by norm_num +decide [from_row, readQuantity, CalculatedType.from_str, pyFloat?,
      pyFloatSigned, pyFloatAux, pyFloatRest, pyFloatFrac, mantissaExp, pyInt?,
      allDigitsVal, digitsToNat, toNat_c0, toNat_c1, toNat_c2, toNat_c5])

/-! ## Claim C3 -/

/-- C3: for every valid nuclide taking the liquid-drop branch, the pairing
variable is 1 when protons and neutrons are both odd, -1 when both are even
and 0 for mixed parity, and it enters the binding energy as the subtracted
term a_P δ / sqrt A with exactly this sign convention. -/
theorem claim_C3 (s : Nuclide) (h1 : 1 ≤ s.protons) (h2 : s.protons ≤ s.atomic_number)
    (h3 : ¬(s.protons = 1 ∧ s.atomic_number ≤ 3)) :
    ((Odd s.protons ∧ Odd (s.atomic_number - s.protons) → s.parity = 1) ∧
     (Even s.protons ∧ Even (s.atomic_number - s.protons) → s.parity = -1) ∧
     (¬(Odd s.protons ↔ Odd (s.atomic_number - s.protons)) → s.parity = 0)) ∧
    s.approximate_binding_energy =
      BINDING_FACTOR_VOLUME * (s.atomic_number : ℝ)
        - BINDING_FACTOR_SURFACE * (s.atomic_number : ℝ) ^ ((2 : ℝ) / 3)
        - BINDING_FACTOR_CHARGE * (s.protons : ℝ) ^ 2 / (s.atomic_number : ℝ) ^ ((1 : ℝ) / 3)
        - BINDING_FACTOR_SYMMETRY * ((s.atomic_number : ℝ) - 2 * (s.protons : ℝ)) ^ 2
            / (s.atomic_number : ℝ)
        - BINDING_FACTOR_PARITY * (s.parity : ℝ) / Real.sqrt (s.atomic_number : ℝ) := by
  constructor
  · refine ⟨?_, ?_, ?_⟩
    · intro h
      simp only [Nat.odd_iff] at h
      unfold Nuclide.parity Nuclide.neutrons
      split_ifs with hc1 hc2 <;> omega
    · intro h
      simp only [Nat.even_iff] at h
      unfold Nuclide.parity Nuclide.neutrons
      split_ifs with hc1 hc2 <;> omega
    · intro h
      simp only [Nat.odd_iff] at h
      unfold Nuclide.parity Nuclide.neutrons
      split_ifs with hc1 hc2 <;> omega
  · unfold Nuclide.approximate_binding_energy
    rw [if_neg h3]
    unfold Nuclide.liquid_drop_energy
    rw [Real.sqrt_eq_rpow]

/-- Witness for C3 at the even-even nuclide with 8 protons and mass number
16. -/
theorem claim_C3_witness :
    ((Odd (⟨8, 16⟩ : Nuclide).protons
        ∧ Odd ((⟨8, 16⟩ : Nuclide).atomic_number - (⟨8, 16⟩ : Nuclide).protons)
        → (⟨8, 16⟩ : Nuclide).parity = 1) ∧
     (Even (⟨8, 16⟩ : Nuclide).protons
        ∧ Even ((⟨8, 16⟩ : Nuclide).atomic_number - (⟨8, 16⟩ : Nuclide).protons)
        → (⟨8, 16⟩ : Nuclide).parity = -1) ∧
     (¬(Odd (⟨8, 16⟩ : Nuclide).protons
        ↔ Odd ((⟨8, 16⟩ : Nuclide).atomic_number - (⟨8, 16⟩ : Nuclide).protons))
        → (⟨8, 16⟩ : Nuclide).parity = 0)) ∧
    (⟨8, 16⟩ : Nuclide).approximate_binding_energy =
      BINDING_FACTOR_VOLUME * ((⟨8, 16⟩ : Nuclide).atomic_number : ℝ)
        - BINDING_FACTOR_SURFACE * ((⟨8, 16⟩ : Nuclide).atomic_number : ℝ) ^ ((2 : ℝ) / 3)
        - BINDING_FACTOR_CHARGE * ((⟨8, 16⟩ : Nuclide).protons : ℝ) ^ 2
            / ((⟨8, 16⟩ : Nuclide).atomic_number : ℝ) ^ ((1 : ℝ) / 3)
        - BINDING_FACTOR_SYMMETRY * (((⟨8, 16⟩ : Nuclide).atomic_number : ℝ)
            - 2 * ((⟨8, 16⟩ : Nuclide).protons : ℝ)) ^ 2
            / ((⟨8, 16⟩ : Nuclide).atomic_number : ℝ)
        - BINDING_FACTOR_PARITY * ((⟨8, 16⟩ : Nuclide).parity : ℝ)
            / Real.sqrt ((⟨8, 16⟩ : Nuclide).atomic_number : ℝ) :=
  claim_C3 ⟨8, 16⟩ (by decide) (by decide) (by decide)

/-! ## Claim C5 -/

/-- C5: a valid nuclide uses the mass-difference branch exactly when it has
one proton and mass number one, two or three, and the liquid-drop branch in
every other case; in particular the hypothetical nuclide with one proton and
mass number four uses the liquid-drop formula. -/
theorem claim_C5 (s : Nuclide) (h1 : 1 ≤ s.protons) (h2 : s.protons ≤ s.atomic_number) :
    ((s.protons = 1 ∧ s.atomic_number ∈ ({1, 2, 3} : Set ℕ)) →
      s.approximate_binding_energy = s.mass_difference_energy) ∧
    (¬(s.protons = 1 ∧ s.atomic_number ∈ ({1, 2, 3} : Set ℕ)) →
      s.approximate_binding_energy = s.liquid_drop_energy) ∧
    (⟨1, 4⟩ : Nuclide).approximate_binding_energy = (⟨1, 4⟩ : Nuclide).liquid_drop_energy := by
  refine ⟨?_, ?_, ?_⟩
  · rintro ⟨hz, hA⟩
    have hA3 : s.atomic_number ≤ 3 := by
      simp only [Set.mem_insert_iff, Set.mem_singleton_iff] at hA
      omega
    unfold Nuclide.approximate_binding_energy
    rw [if_pos ⟨hz, hA3⟩]
  · intro hneg
    unfold Nuclide.approximate_binding_energy
    rw [if_neg]
    rintro ⟨hz, hA3⟩
    apply hneg
    refine ⟨hz, ?_⟩
    simp only [Set.mem_insert_iff, Set.mem_singleton_iff]
    omega
  · unfold Nuclide.approximate_binding_energy
    rw [if_neg (by decide)]

/-- Witness for C5 at deuterium (one proton, mass number two). -/
theorem claim_C5_witness :
    (((⟨1, 2⟩ : Nuclide).protons = 1 ∧ (⟨1, 2⟩ : Nuclide).atomic_number ∈ ({1, 2, 3} : Set ℕ)) →
      (⟨1, 2⟩ : Nuclide).approximate_binding_energy = (⟨1, 2⟩ : Nuclide).mass_difference_energy) ∧
    (¬((⟨1, 2⟩ : Nuclide).protons = 1 ∧ (⟨1, 2⟩ : Nuclide).atomic_number ∈ ({1, 2, 3} : Set ℕ)) →
      (⟨1, 2⟩ : Nuclide).approximate_binding_energy = (⟨1, 2⟩ : Nuclide).liquid_drop_energy) ∧
    (⟨1, 4⟩ : Nuclide).approximate_binding_energy = (⟨1, 4⟩ : Nuclide).liquid_drop_energy :=
  claim_C5 ⟨1, 2⟩ (by decide) (by decide)

/-! ## Claim C7 -/

/-- C7: for every valid nuclide the binding energy per nucleon is exactly
the binding energy divided by the mass number. -/
theorem claim_C7 (s : Nuclide) (h1 : 1 ≤ s.protons) (h2 : s.protons ≤ s.atomic_number) :
    s.approximate_binding_energy_per_nucleon
      = s.approximate_binding_energy / (s.atomic_number : ℝ) := rfl

/-- Witness for C7 at helium-4. -/
theorem claim_C7_witness :
    (⟨2, 4⟩ : Nuclide).approximate_binding_energy_per_nucleon
      = (⟨2, 4⟩ : Nuclide).approximate_binding_energy / ((⟨2, 4⟩ : Nuclide).atomic_number : ℝ) :=
  claim_C7 ⟨2, 4⟩ (by decide) (by decide)

/-! ## Claim C6 -/

/-- C6: for every mass number at least one, minimal_binding_energy_protons
equals the specification's closed-form stability value rounded to an
integer, and at mass number one it returns one. -/
theorem claim_C6 :
    (∀ A : ℕ, 1 ≤ A → minimal_binding_energy_protons A = pyRound (spec_stability_Z A)) ∧
    minimal_binding_energy_protons 1 = 1 := by
  have hgen : ∀ A : ℕ, minimal_binding_energy_protons A = pyRound (spec_stability_Z A) := by
    intro A
    unfold minimal_binding_energy_protons spec_stability_Z
    rw [div_div, div_div]
  constructor
  · intro A _
    exact hgen A
  · rw [hgen 1]
    have hq : spec_stability_Z 1 =
        (((1 / 2 : ℚ) * (1 + (1.0086649 - 1.0072765) * 931.49410242 / 4 / 23.20)
          / (1 + (0.714 : ℚ) * 1 / 4 / 23.20) : ℚ) : ℝ) := by
      unfold spec_stability_Z NEUTRON_MASS PROTON_MASS ATOMIC_MASS_ENERGY_EQUIVALENCE
        BINDING_FACTOR_SYMMETRY BINDING_FACTOR_CHARGE
      push_cast
      rw [Real.one_rpow]
      ring
    rw [hq, pyRound_ratCast]
    · rw [round_eq]
      norm_num
    · norm_num

/-- Witness for C6 at mass number two. -/
theorem claim_C6_witness :
    1 ≤ 2 ∧ minimal_binding_energy_protons 2 = pyRound (spec_stability_Z 2) :=
  ⟨by norm_num, claim_C6.1 2 (by norm_num)⟩
